import Mathlib

/-!
Shallow embedding of the Audit_complaince Flask application (src/app.py).

The application keeps transactions and compliance rules in two document
stores (Cosmos DB containers), modelled here as Lean lists.  The three
routes with logic are embedded as pure functions:

* `audit_transaction`  (POST /audit, app.py lines 73-101): validates the
  raw payload's amount with Python `float`, runs `check_compliance`,
  derives `is_compliant` from the issue list, upserts the transaction and
  answers with `{transaction_id, compliance_issues, is_compliant}` / 201,
  or with `{"error": "Invalid amount format"}` / 400 when `float` raises
  `ValueError`.
* `check_compliance`   (app.py lines 103-123): coerces the transaction's
  `amount` to float in place, reads all rules from the rule store and, for
  each rule in order, evaluates `eval(rule["rule_check"].format(transaction=transaction))`;
  a falsy result appends `rule["rule_description"]` to the issue list, an
  exception is caught and logged (`logging.error`) and the loop continues.
* `update_compliance`  (POST /update_compliance, app.py lines 161-175):
  stores `{id: uuid, rule_description, rule_check}` verbatim in the rule
  store — the rule text is never parsed, compiled or validated — and
  answers 201.
* `generate_report`    (GET /generate_report, app.py lines 125-159):
  filters the stored transactions to the non-compliant ones; when none
  remain it returns the fixed sentinel `'No non-compliant transactions
  found.'`, otherwise it builds a prompt from the non-compliant
  transactions and forwards it to the external text-generation service.

Python `eval` over the formatted rule text is embedded denotationally: a
rule in scope of `check_compliance` carries the function
`Transaction → EvalOutcome` that the formatted-and-evaluated text denotes
(truthy result, falsy result, or a raised exception).  `logging.error`
calls made while checking rules are made observable as the `errLog`
component of the result, and the in-place mutation of the transaction
dict as the `txAfter` component.
-/

namespace AuditApp

/-- A JSON scalar as it reaches `float(...)` in app.py: a string or a
number.  Python floats are modelled as rationals. -/
inductive Value where
  | str (s : String)
  | num (q : ℚ)
deriving DecidableEq, Repr

/-- Value of a decimal digit character. -/
def digitVal (c : Char) : Option Nat :=
  if c.isDigit then some (c.toNat - 48) else none

/-- Accumulate a base-10 natural number from a digit list; `none` when a
non-digit occurs. -/
def digitsToNatAux : List Char → Nat → Option Nat
  | [], acc => some acc
  | c :: cs, acc =>
    match digitVal c with
    | some d => digitsToNatAux cs (10 * acc + d)
    | none => none

/-- Unsigned decimal number: digits, optionally followed by a point and
more digits; at least one digit overall (Python accepts "5.", ".5",
rejects "." and ""). -/
def parseUnsigned (cs : List Char) : Option ℚ :=
  let intPart := cs.takeWhile Char.isDigit
  let rest := cs.dropWhile Char.isDigit
  match rest with
  | [] =>
    if intPart.isEmpty then none
    else (digitsToNatAux intPart 0).map (fun n => (n : ℚ))
  | '.' :: frac =>
    if frac.all Char.isDigit && (!intPart.isEmpty || !frac.isEmpty) then
      some (mkRat ((digitsToNatAux (intPart ++ frac) 0).getD 0) (10 ^ frac.length))
    else none
  | _ => none

/-- Model of Python `float(s)` on a string: optional sign then an
unsigned decimal number; `none` models a raised `ValueError`. -/
def parseFloat (s : String) : Option ℚ :=
  match s.toList with
  | '-' :: cs => (parseUnsigned cs).map Neg.neg
  | '+' :: cs => parseUnsigned cs
  | cs => parseUnsigned cs

/-- Model of Python `float(v)` on a JSON scalar (app.py lines 81 and
106): numbers pass through, strings are parsed, failure models
`ValueError`. -/
def pyFloat : Value → Option ℚ
  | .num q => some q
  | .str s => parseFloat s

/-- A transaction document as built by `audit_transaction` (app.py lines
77-83, 88-90) and stored in the `Transactions` container. -/
structure Transaction where
  id : String
  date : String
  description : String
  amount : Value
  is_compliant : Bool
  compliance_issues : List String
deriving DecidableEq, Repr

/-- The raw JSON payload of POST /audit (`data['date']`,
`data['description']`, `data['amount']`); only `amount` is ever
converted, the other fields are copied as given. -/
structure RawTx where
  date : String
  description : String
  amount : Value
deriving DecidableEq, Repr

/-- Outcome of `eval(rule["rule_check"].format(transaction=transaction))`
for one rule against one transaction: a result whose truthiness is `b`,
or a raised exception (caught at app.py line 120). -/
inductive EvalOutcome where
  | val (b : Bool)
  | exn
deriving DecidableEq, Repr

/-- A rule as seen by the loop of `check_compliance`: its description and
the denotation of formatting-then-evaluating its `rule_check` text
against a transaction. -/
structure EvalRule where
  rule_description : String
  check : Transaction → EvalOutcome

/-- The loop of app.py lines 114-122: for each rule in store order,
append the description to the issues when the evaluation is falsy, log
an error and continue when it raises.  Returns (issues, error log). -/
def checkLoop (t : Transaction) : List EvalRule → List String × List String
  | [] => ([], [])
  | r :: rs =>
    match r.check t with
    | .val true => checkLoop t rs
    | .val false => (r.rule_description :: (checkLoop t rs).1, (checkLoop t rs).2)
    | .exn => ((checkLoop t rs).1, r.rule_description :: (checkLoop t rs).2)

/-- Observable result of `check_compliance`: the returned issue list, the
`logging.error` entries emitted for rules that raised, and the state of
the transaction dict after the call (its `amount` is reassigned in
place at app.py line 106). -/
structure CheckResult where
  issues : List String
  errLog : List String
  txAfter : Transaction
deriving Repr

/-- app.py lines 103-123.  `transaction['amount'] = float(transaction['amount'])`
either coerces the amount (mutating the dict) or raises `ValueError`,
which short-circuits to the issue list `["Invalid transaction amount format"]`;
otherwise every rule is checked in order by `checkLoop`. -/
def check_compliance (rules : List EvalRule) (t : Transaction) : CheckResult :=
  match pyFloat t.amount with
  | none => ⟨["Invalid transaction amount format"], ["amount conversion error"], t⟩
  | some q =>
    let tc : Transaction := { t with amount := .num q }
    let res := checkLoop tc rules
    ⟨res.1, res.2, tc⟩

/-- The JSON answer of POST /audit: 201 with
`{transaction_id, compliance_issues, is_compliant}` on success, 400 with
`{"error": "Invalid amount format"}` when `float(data['amount'])`
raises. -/
inductive AuditResponse where
  | created (transaction_id : String) (compliance_issues : List String) (is_compliant : Bool)
  | invalidAmount
deriving DecidableEq, Repr

/-- Cosmos `upsert_item` on the transaction container: replace the item
with the same id, or append when the id is new. -/
def upsertById (store : List Transaction) (t : Transaction) : List Transaction :=
  if store.any (fun u => u.id = t.id) then
    store.map (fun u => if u.id = t.id then t else u)
  else store ++ [t]

/-- The transaction dict as first assembled at app.py lines 77-83: fresh
uuid, payload fields, converted amount, `is_compliant` initially `True`
(the dict has no `compliance_issues` key yet; the model uses `[]`). -/
def mkAuditTx (freshId : String) (raw : RawTx) (q : ℚ) : Transaction :=
  { id := freshId, date := raw.date, description := raw.description
    amount := .num q, is_compliant := true, compliance_issues := [] }

/-- app.py lines 89-90: after `check_compliance` returns, the same dict
gets `is_compliant = (len(compliance_issues) == 0)` and
`compliance_issues`. -/
def finalizeTx (c : CheckResult) : Transaction :=
  { c.txAfter with is_compliant := c.issues.isEmpty, compliance_issues := c.issues }

/-- app.py lines 73-101.  `freshId` stands for the generated
`str(uuid.uuid4())`.  The amount is converted with `float` (ValueError →
400, nothing evaluated, nothing stored); on success the transaction dict
gets `is_compliant = (len(compliance_issues) == 0)` and
`compliance_issues`, is upserted, and the 201 answer echoes the three
fields.  (The `upsert_item`-raised 500 path is a store collaborator
failure and is not modelled.) -/
def audit_transaction (rules : List EvalRule) (freshId : String) (raw : RawTx)
    (store : List Transaction) : List Transaction × AuditResponse :=
  match pyFloat raw.amount with
  | none => (store, .invalidAmount)
  | some q =>
    let t1 := finalizeTx (check_compliance rules (mkAuditTx freshId raw q))
    (upsertById store t1, .created t1.id t1.compliance_issues t1.is_compliant)

/-- A rule document exactly as stored by `update_compliance` (app.py
lines 164-168): id, human description, and the raw `rule_check` text —
kept as an uninterpreted string because the route never parses it. -/
structure RuleRec where
  id : String
  rule_description : String
  rule_check : String
deriving DecidableEq, Repr

/-- The JSON answer of POST /update_compliance: HTTP status and the new
rule id (app.py line 172). -/
structure UpdateResponse where
  status : Nat
  rule_id : String
deriving DecidableEq, Repr

/-- Cosmos `upsert_item` on the rule container. -/
def upsertRuleById (store : List RuleRec) (r : RuleRec) : List RuleRec :=
  if store.any (fun u => u.id = r.id) then
    store.map (fun u => if u.id = r.id then r else u)
  else store ++ [r]

/-- app.py lines 161-175.  The new rule is stored verbatim — no parsing,
no compilation, no field-name check — and the route answers 201.  (The
`upsert_item`-raised 500 path is a store collaborator failure and is not
modelled.) -/
def update_compliance (freshId rule_description rule_check : String)
    (store : List RuleRec) : List RuleRec × UpdateResponse :=
  let newRule : RuleRec := ⟨freshId, rule_description, rule_check⟩
  (upsertRuleById store newRule, ⟨201, freshId⟩)

/-- The answer of GET /generate_report, up to the external
text-generation collaborator: either the fixed sentinel
`'No non-compliant transactions found.'` (app.py line 131) or a real
report generated from the non-compliant transactions (the structured
content of the prompt built at lines 134-150). -/
inductive ReportResult where
  | noViolations
  | generated (nonCompliant : List Transaction)
deriving DecidableEq, Repr

/-- app.py lines 125-159: read all transactions, keep the non-compliant
ones, answer the sentinel when none remain, otherwise build the report
from the non-compliant list in store order. -/
def generate_report (transactions : List Transaction) : ReportResult :=
  let nc := transactions.filter (fun t => !t.is_compliant)
  if nc.isEmpty then .noViolations else .generated nc

/-- A rule is recorded as violated by the loop when its evaluation result
is falsy (`if not eval(...)`, app.py line 117). -/
def violates (t : Transaction) (r : EvalRule) : Bool :=
  match r.check t with
  | .val false => true
  | _ => false

/-- The per-transaction invariant maintained by the audit route (app.py
lines 89-90). -/
def txInvariant (t : Transaction) : Prop :=
  t.is_compliant = t.compliance_issues.isEmpty

/-- Checking a concatenation of rule lists concatenates both the issue
lists and the error logs. -/
theorem checkLoop_append (t : Transaction) (l1 l2 : List EvalRule) :
    checkLoop t (l1 ++ l2)
      = ((checkLoop t l1).1 ++ (checkLoop t l2).1,
         (checkLoop t l1).2 ++ (checkLoop t l2).2) := by
  induction l1 with
  | nil => simp [checkLoop]
  | cons r rs ih =>
    rw [List.cons_append]
    simp only [checkLoop]
    cases hc : r.check t with
    | val b => cases b <;> simp [ih]
    | exn => simp [ih]

/-- Rules that all evaluate truthily contribute nothing: no issues and no
logged errors. -/
theorem checkLoop_all_true (t : Transaction) (l : List EvalRule)
    (h : ∀ r ∈ l, r.check t = .val true) : checkLoop t l = ([], []) := by
  induction l with
  | nil => rfl
  | cons r rs ih =>
    have hr := h r (List.mem_cons_self r rs)
    simp only [checkLoop, hr]
    exact ih (fun r2 hm => h r2 (List.mem_cons_of_mem _ hm))

/-- The issue list produced by the loop is exactly the violated rules, in
store order, mapped to their descriptions. -/
theorem checkLoop_issues_filter (t : Transaction) (l : List EvalRule) :
    (checkLoop t l).1 = (l.filter (violates t)).map EvalRule.rule_description := by
  induction l with
  | nil => rfl
  | cons r rs ih =>
    simp only [checkLoop, List.filter_cons]
    cases hc : r.check t with
    | val b => cases b <;> simp [violates, hc, ih]
    | exn => simp [violates, hc, ih]

/-- Every member of the transaction store after an upsert is an old
member or the upserted transaction. -/
theorem mem_upsertById {store : List Transaction} {t u : Transaction}
    (h : u ∈ upsertById store t) : u ∈ store ∨ u = t := by
  unfold upsertById at h
  split at h
  · rcases List.mem_map.mp h with ⟨v, hv, heq⟩
    by_cases hid : v.id = t.id
    · rw [if_pos hid] at heq
      exact Or.inr heq.symm
    · rw [if_neg hid] at heq
      exact Or.inl (heq ▸ hv)
  · rcases List.mem_append.mp h with hv | hv
    · exact Or.inl hv
    · exact Or.inr (List.mem_singleton.mp hv)

/-- Upserting a rule whose id is not yet in the store appends it. -/
theorem upsertRuleById_fresh {store : List RuleRec} {r : RuleRec}
    (h : r.id ∉ store.map RuleRec.id) : upsertRuleById store r = store ++ [r] := by
  unfold upsertRuleById
  have hany : store.any (fun u => u.id = r.id) = false := by
    rw [List.any_eq_false]
    intro u hu
    simp only [decide_eq_true_eq]
    intro hid
    exact h (hid ▸ List.mem_map_of_mem RuleRec.id hu)
  rw [hany]
  simp

/-- Sample transaction with a numeric amount of 500, as built by the
audit route. -/
def tNum500 : Transaction := ⟨"tx-1", "2024-01-01", "coffee", .num 500, true, []⟩

/-- Denotation of the rule text `{transaction[amount]} > 1000`: truthy
exactly when the amount exceeds 1000 (raises on a string amount, as the
formatted comparison would). -/
def amountRule : EvalRule :=
  ⟨"amount must exceed 1000", fun t =>
    match t.amount with
    | .num a => .val (decide (1000 < a))
    | .str _ => .exn⟩

/-- Denotation of a rule text that raises on every transaction, such as
`{transaction[foo]} > 10`, whose `.format` call raises `KeyError`
before `eval` runs. -/
def badRule : EvalRule := ⟨"references unknown field foo", fun _ => .exn⟩

/-- Claim C3: a raw payload whose amount does not parse to a number makes
the audit fail with the validation error (HTTP 400, "Invalid amount
format") and the result — the unchanged store and the error response —
does not depend on the rule set at all: no rule is evaluated and no
store write occurs. -/
theorem c3_invalid_amount_aborts (rules : List EvalRule) (freshId : String)
    (raw : RawTx) (store : List Transaction)
    (hq : pyFloat raw.amount = none) :
    audit_transaction rules freshId raw store = (store, .invalidAmount) := by
  simp only [audit_transaction, hq]

/-- Witness for C3 at the concrete payload `amount = "abc"`. -/
theorem c3_invalid_amount_aborts_witness :
    pyFloat (RawTx.mk "2024-01-01" "coffee" (Value.str "abc")).amount = none
    ∧ audit_transaction [amountRule] "tx-3"
        (RawTx.mk "2024-01-01" "coffee" (Value.str "abc")) [] = ([], .invalidAmount) :=
  ⟨by decide, c3_invalid_amount_aborts [amountRule] "tx-3" _ [] (by decide)⟩

/-- Claim C7: for a transaction whose amount converts to `q`, the issue
list returned by `check_compliance` is exactly the rules whose
evaluation is falsy, in rule-store (insertion/load) order, mapped to
their descriptions — duplicates included, since `List.filter` keeps
every violated rule whatever its description. -/
theorem c7_issues_order (t : Transaction) (q : ℚ) (rules : List EvalRule)
    (hq : pyFloat t.amount = some q) :
    (check_compliance rules t).issues
      = (rules.filter (violates { t with amount := .num q })).map
          EvalRule.rule_description := by
  simp only [check_compliance, hq]
  exact checkLoop_issues_filter _ _

/-- Witness for C7: two rules, the first violated and the second raising,
produce exactly the first description. -/
theorem c7_issues_order_witness :
    pyFloat tNum500.amount = some 500
    ∧ (check_compliance [amountRule, badRule] tNum500).issues
        = ([amountRule, badRule].filter
            (violates { tNum500 with amount := .num 500 })).map
            EvalRule.rule_description :=
  ⟨rfl, c7_issues_order tNum500 500 [amountRule, badRule] rfl⟩

/-- Claim C4: a rule whose compiled expression evaluates (truthiness `b`)
contributes its description to the issue list exactly when `b` is false;
a truthy evaluation adds nothing.  The surrounding rules contribute
independently. -/
theorem c4_violation_iff_false (t : Transaction) (q : ℚ) (pre post : List EvalRule)
    (r : EvalRule) (b : Bool)
    (hq : pyFloat t.amount = some q)
    (hr : r.check { t with amount := .num q } = .val b) :
    (check_compliance (pre ++ r :: post) t).issues
      = (check_compliance pre t).issues
        ++ (if b then [] else [r.rule_description])
        ++ (check_compliance post t).issues := by
  simp only [check_compliance, hq]
  rw [checkLoop_append]
  simp only [checkLoop, hr]
  cases b <;> simp

/-- Witness for C4: the rule `amount must exceed 1000` on a transaction
with amount 500 evaluates falsy and its description is recorded. -/
theorem c4_violation_iff_false_witness :
    pyFloat tNum500.amount = some 500
    ∧ amountRule.check { tNum500 with amount := Value.num 500 } = .val false
    ∧ (check_compliance ([] ++ amountRule :: []) tNum500).issues
        = (check_compliance [] tNum500).issues
          ++ (if false then [] else [amountRule.rule_description])
          ++ (check_compliance [] tNum500).issues :=
  ⟨rfl, by decide,
    c4_violation_iff_false tNum500 500 [] [] amountRule false rfl (by decide)⟩

/-- Claim C5: a rule whose evaluation raises is captured (the exception
is caught at app.py line 120) and reported per rule through the
`logging.error` entry carrying that rule's description, and it does not
abort the loop: the issue list is exactly the one produced by all the
other rules, each of which is still evaluated. -/
theorem c5_eval_error_isolated (t : Transaction) (q : ℚ) (pre post : List EvalRule)
    (r : EvalRule)
    (hq : pyFloat t.amount = some q)
    (hr : r.check { t with amount := .num q } = .exn) :
    (check_compliance (pre ++ r :: post) t).issues
      = (check_compliance pre t).issues ++ (check_compliance post t).issues
    ∧ (check_compliance (pre ++ r :: post) t).errLog
      = (check_compliance pre t).errLog
        ++ r.rule_description :: (check_compliance post t).errLog := by
  simp only [check_compliance, hq]
  rw [checkLoop_append]
  simp [checkLoop, hr]

/-- Witness for C5: the raising rule sits between two copies of the
violated amount rule; both neighbours still contribute their issue and
the raising rule is logged. -/
theorem c5_eval_error_isolated_witness :
    pyFloat tNum500.amount = some 500
    ∧ badRule.check { tNum500 with amount := Value.num 500 } = .exn
    ∧ (check_compliance ([amountRule] ++ badRule :: [amountRule]) tNum500).issues
        = (check_compliance [amountRule] tNum500).issues
          ++ (check_compliance [amountRule] tNum500).issues
    ∧ (check_compliance ([amountRule] ++ badRule :: [amountRule]) tNum500).errLog
        = (check_compliance [amountRule] tNum500).errLog
          ++ badRule.rule_description :: (check_compliance [amountRule] tNum500).errLog := by
  refine ⟨rfl, rfl, ?_⟩
  exact c5_eval_error_isolated tNum500 500 [amountRule] [amountRule] badRule rfl rfl

/-- Claim C2: the audit route recomputes `is_compliant` and
`compliance_issues` together (app.py lines 88-90): if every stored
transaction satisfies `is_compliant = compliance_issues.isEmpty`, so
does every transaction in the store after an audit, and a 201 answer
always reports `is_compliant` equal to the emptiness of the reported
issue list. -/
theorem c2_is_compliant_iff_no_issues (rules : List EvalRule) (freshId : String)
    (raw : RawTx) (store : List Transaction)
    (hstore : ∀ t ∈ store, txInvariant t) :
    (∀ t ∈ (audit_transaction rules freshId raw store).1, txInvariant t)
    ∧ (∀ tid iss b,
        (audit_transaction rules freshId raw store).2 = .created tid iss b →
        b = iss.isEmpty) := by
  cases hq : pyFloat raw.amount with
  | none =>
    simp only [audit_transaction, hq]
    refine ⟨hstore, ?_⟩
    intro tid iss b hcr
    cases hcr
  | some q =>
    simp only [audit_transaction, hq]
    constructor
    · intro t ht
      rcases mem_upsertById ht with h | h
      · exact hstore t h
      · rw [h]
        rfl
    · intro tid iss b hcr
      cases hcr
      rfl

/-- Witness for C2 at an empty store and a violated rule. -/
theorem c2_is_compliant_iff_no_issues_witness :
    (∀ t ∈ ([] : List Transaction), txInvariant t)
    ∧ (∀ t ∈ (audit_transaction [amountRule] "tx-4"
          (RawTx.mk "2024-01-01" "coffee" (Value.num 500)) []).1, txInvariant t) :=
  ⟨by simp,
    (c2_is_compliant_iff_no_issues [amountRule] "tx-4"
      (RawTx.mk "2024-01-01" "coffee" (Value.num 500)) [] (by simp)).1⟩

/-- Claim C8: when every stored transaction is compliant (also when the
store is empty) the report route answers the fixed sentinel
`'No non-compliant transactions found.'`, and that sentinel is a
different result from every generated report — in particular from one
generated for a non-compliant transaction whose issue list is empty. -/
theorem c8_all_compliant_sentinel (txs : List Transaction)
    (h : ∀ t ∈ txs, t.is_compliant = true) :
    generate_report txs = .noViolations
    ∧ ∀ nc, (ReportResult.noViolations : ReportResult) ≠ .generated nc := by
  constructor
  · have hnil : txs.filter (fun t => !t.is_compliant) = [] := by
      rw [List.filter_eq_nil_iff]
      intro t ht
      simp [h t ht]
    simp [generate_report, hnil]
  · intro nc hcon
    cases hcon

/-- Witness for C8 at the empty store. -/
theorem c8_all_compliant_sentinel_witness :
    (∀ t ∈ ([] : List Transaction), t.is_compliant = true)
    ∧ generate_report [] = .noViolations :=
  ⟨by simp, (c8_all_compliant_sentinel [] (by simp)).1⟩

/-- Claim C10: a rule whose evaluation raises contributes neither an
issue nor any error indication to the audit answer: with all the other
rules truthy, the route answers 201 with an empty issue list and
`is_compliant = true`, although the raising rule was never decided. -/
theorem c10_silent_discard (freshId : String) (raw : RawTx)
    (store : List Transaction) (q : ℚ) (pre post : List EvalRule) (r : EvalRule)
    (hq : pyFloat raw.amount = some q)
    (hr : r.check (mkAuditTx freshId raw q) = .exn)
    (hok : ∀ r2 ∈ pre ++ post, r2.check (mkAuditTx freshId raw q) = .val true) :
    (audit_transaction (pre ++ r :: post) freshId raw store).2
      = .created freshId [] true := by
  have hpre : checkLoop (mkAuditTx freshId raw q) pre = ([], []) :=
    checkLoop_all_true _ _ (fun r2 h2 => hok r2 (List.mem_append_left _ h2))
  have hpost : checkLoop (mkAuditTx freshId raw q) post = ([], []) :=
    checkLoop_all_true _ _ (fun r2 h2 => hok r2 (List.mem_append_right _ h2))
  have htc : ({ mkAuditTx freshId raw q with amount := Value.num q } : Transaction)
      = mkAuditTx freshId raw q := rfl
  have hamt : pyFloat (mkAuditTx freshId raw q).amount = some q := rfl
  have hchk : check_compliance (pre ++ r :: post) (mkAuditTx freshId raw q)
      = ⟨[], [r.rule_description], mkAuditTx freshId raw q⟩ := by
    simp only [check_compliance, hamt, htc]
    rw [checkLoop_append]
    simp only [checkLoop, hr, hpre, hpost]
    simp
  simp only [audit_transaction, hq, hchk, finalizeTx]
  rfl

/-- Witness for C10: the rule set holds only a raising rule and the
transaction comes back compliant with no issues. -/
theorem c10_silent_discard_witness :
    pyFloat (RawTx.mk "2024-01-01" "coffee" (Value.num 1500)).amount = some 1500
    ∧ badRule.check (mkAuditTx "tx-2" (RawTx.mk "2024-01-01" "coffee" (Value.num 1500)) 1500)
        = .exn
    ∧ (audit_transaction ([] ++ badRule :: []) "tx-2"
        (RawTx.mk "2024-01-01" "coffee" (Value.num 1500)) []).2
        = .created "tx-2" [] true :=
  ⟨rfl, rfl,
    c10_silent_discard "tx-2" (RawTx.mk "2024-01-01" "coffee" (Value.num 1500))
      [] 1500 [] [] badRule rfl rfl (by simp)⟩

/-- Claim C1 counterexample: the rule text `{transaction[foo]} > 10`
references the field `foo`, which is none of `date`, `description`,
`amount`; yet upserting it through POST /update_compliance succeeds
(201) and the rule enters the active rule store — no compilation
happens, so no rule-syntax failure is possible. -/
theorem c1_counterexample :
    (update_compliance "rid-1" "Unknown field rule" "{transaction[foo]} > 10" []).2.status = 201
    ∧ (update_compliance "rid-1" "Unknown field rule" "{transaction[foo]} > 10" []).1
      = [⟨"rid-1", "Unknown field rule", "{transaction[foo]} > 10"⟩] :=
  ⟨rfl, rfl⟩

/-- Claim C1 as amended: rule upsert performs no compilation and no
field-name validation — every rule text, including one referencing an
unknown field, is accepted with 201 and enters the active rule set. -/
theorem c1_rules_stored_uncompiled (freshId rule_description rule_check : String)
    (store : List RuleRec)
    (hfresh : freshId ∉ store.map RuleRec.id) :
    (update_compliance freshId rule_description rule_check store).2.status = 201
    ∧ (⟨freshId, rule_description, rule_check⟩ : RuleRec)
        ∈ (update_compliance freshId rule_description rule_check store).1 := by
  refine ⟨rfl, ?_⟩
  simp only [update_compliance]
  rw [upsertRuleById_fresh hfresh]
  simp

/-- Witness for the amended C1 at the unknown-field rule text and the
empty store. -/
theorem c1_rules_stored_uncompiled_witness :
    ("rid-1" : String) ∉ ([] : List RuleRec).map RuleRec.id
    ∧ ((update_compliance "rid-1" "Unknown field rule" "{transaction[foo]} > 10" []).2.status = 201
      ∧ (⟨"rid-1", "Unknown field rule", "{transaction[foo]} > 10"⟩ : RuleRec)
          ∈ (update_compliance "rid-1" "Unknown field rule" "{transaction[foo]} > 10" []).1) :=
  ⟨by simp,
    c1_rules_stored_uncompiled "rid-1" "Unknown field rule" "{transaction[foo]} > 10" []
      (by simp)⟩

/-- A rule already present in the store. -/
def someRule : RuleRec := ⟨"rid-0", "Existing rule", "{transaction[amount]} > 1000"⟩

/-- Claim C6 counterexample: upserting the syntactically invalid rule
text `((( not a valid predicate` does not fail — it answers 201 — and
the active rule set read back afterwards differs from the one before
(the broken rule was appended). -/
theorem c6_counterexample :
    (update_compliance "rid-2" "Broken rule" "((( not a valid predicate" [someRule]).2.status
      = 201
    ∧ (update_compliance "rid-2" "Broken rule" "((( not a valid predicate" [someRule]).1
        ≠ [someRule] := by
  refine ⟨rfl, ?_⟩
  decide

/-- Claim C6 as amended: upsert never rejects a rule for its syntax;
with a fresh id the rule set after the upsert is the old set with the
new rule appended, whatever the rule text. -/
theorem c6_upsert_always_appends (freshId rule_description rule_check : String)
    (store : List RuleRec) (hfresh : freshId ∉ store.map RuleRec.id) :
    (update_compliance freshId rule_description rule_check store).1
      = store ++ [⟨freshId, rule_description, rule_check⟩] := by
  simp only [update_compliance]
  exact upsertRuleById_fresh hfresh

/-- Witness for the amended C6 at the invalid rule text and a one-rule
store. -/
theorem c6_upsert_always_appends_witness :
    ("rid-2" : String) ∉ ([someRule] : List RuleRec).map RuleRec.id
    ∧ (update_compliance "rid-2" "Broken rule" "((( not a valid predicate" [someRule]).1
        = [someRule] ++ [⟨"rid-2", "Broken rule", "((( not a valid predicate"⟩] :=
  ⟨by decide,
    c6_upsert_always_appends "rid-2" "Broken rule" "((( not a valid predicate" [someRule]
      (by decide)⟩

/-- Transaction whose amount is the numeric string "500", as
`check_compliance` would receive it when called on raw dict data. -/
def tStrAmount : Transaction := ⟨"tx-9", "2024-01-01", "coffee", .str "500", true, []⟩

/-- Claim C9 counterexample: evaluating a rule (here one whose
expression is truthy on every transaction) against a transaction whose
amount is the string "500" leaves the transaction with amount 500.0 —
app.py line 106 reassigns `transaction['amount']` in place, so the
field's value after evaluation differs from its value before. -/
theorem c9_counterexample :
    (check_compliance [⟨"always true", fun _ => .val true⟩] tStrAmount).txAfter.amount
      ≠ tStrAmount.amount := by
  decide

/-- Claim C9 as amended: evaluation never touches `id`, `date`,
`description`, `is_compliant` or `compliance_issues`; the only mutation
is the in-place float coercion of `amount`, so a transaction whose
amount is already numeric — every transaction the audit route builds —
is left completely unchanged. -/
theorem c9_mutation_only_amount (rules : List EvalRule) (t : Transaction) :
    ((check_compliance rules t).txAfter.id = t.id
      ∧ (check_compliance rules t).txAfter.date = t.date
      ∧ (check_compliance rules t).txAfter.description = t.description
      ∧ (check_compliance rules t).txAfter.is_compliant = t.is_compliant
      ∧ (check_compliance rules t).txAfter.compliance_issues = t.compliance_issues)
    ∧ (∀ q : ℚ, t.amount = .num q → (check_compliance rules t).txAfter = t) := by
  constructor
  · unfold check_compliance
    cases hq : pyFloat t.amount <;> simp
  · intro q hq
    unfold check_compliance
    rw [hq]
    simp only [pyFloat]
    cases t
    simp_all

/-- Witness for the amended C9: a numeric-amount transaction comes back
from evaluation unchanged. -/
theorem c9_mutation_only_amount_witness :
    tNum500.amount = Value.num 500
    ∧ (check_compliance [amountRule] tNum500).txAfter = tNum500 :=
  ⟨rfl, (c9_mutation_only_amount [amountRule] tNum500).2 500 rfl⟩

end AuditApp
